import Mathlib

/-!
# Book Courier server: shallow embedding and verification

A shallow embedding of the route handlers of the Book Courier Express/MongoDB
server (`src/index.js`).  The five Mongo collections are modelled as Lean
lists; each route handler becomes a pure function from a database state and
the request data to a new database state and a response value.

Modelling conventions, matching the JavaScript source:
* `insertOne` appends to the end of a list; `findOne`/`updateOne`/`deleteOne`
  act on the first matching element (Mongo returns documents in insertion
  order for these collections); `deleteMany`/`find` filter the whole list.
* Mongo `updateOne` reports `modifiedCount = 1` exactly when a matching
  document existed and the update changed it.
* JavaScript `Number.prototype.toFixed(1)` (used for the aggregate book
  rating) produces the decimal string whose value is the rational
  `round1 x = (floor (10*x + 1/2)) / 10` (ECMA-262: nearest, ties to the
  larger candidate, which for the nonnegative averages here is ties up).
  The stored rating is modelled by that rational value.
* Request-body fields that may be absent (`undefined`) are `Option` values;
  the JavaScript falsiness test `!s` on a string is `s = ""` on the present
  value.  Integer review ratings are `Int` (the source applies `parseInt`,
  the identity on integers).  `parseFloat` of the `rating` query parameter
  is modelled by passing the parsed rational directly; the raw string `"0"`
  corresponds to the parsed value `0`.
* The Stripe checkout-session broker is a function from session ids to the
  session's `payment_status` string.
-/

namespace BookCourier

/-- A document of the `books` collection (fields used by the routes). -/
structure Book where
  bid : String
  bookTitle : String
  authorName : String
  category : String
  status : String
  librarianEmail : String
  price : Rat
  rating : Rat
  reviewCount : Nat
deriving DecidableEq, Repr

/-- A document of the `orders` collection. -/
structure Order where
  oid : Nat
  bookId : String
  bookTitle : String
  price : Rat
  email : String
  status : String
  payment_status : String
  orderDate : Nat
  stripeSessionId : String
  paidAt : Option Nat
deriving DecidableEq, Repr

/-- A document of the `users` collection. -/
structure User where
  email : String
  name : String
  role : String
  createdAt : Nat
  lastRoleUpdate : Option Nat
deriving DecidableEq, Repr

/-- A document of the `reviews` collection. -/
structure Review where
  bookId : String
  userId : String
  userName : String
  rating : Int
  reviewText : String
  createdAt : Nat
deriving DecidableEq, Repr

/-- The database state: the collections touched by the verified routes. -/
structure DB where
  books : List Book
  orders : List Order
  users : List User
  reviews : List Review
deriving DecidableEq, Repr

/-- Replace the first element satisfying `p` by its image under `f`
(Mongo `updateOne` on the matched document). -/
def updateFirst (p : α → Bool) (f : α → α) : List α → List α
  | [] => []
  | a :: t => if p a then f a :: t else a :: updateFirst p f t

/-- Remove the first element satisfying `p` (Mongo `deleteOne`). -/
def eraseFirst (p : α → Bool) : List α → List α
  | [] => []
  | a :: t => if p a then t else a :: eraseFirst p t

/-- Result document of a Mongo `updateOne`. -/
structure UpdateResult where
  matchedCount : Nat
  modifiedCount : Nat
deriving DecidableEq, Repr

/-- Mongo `updateOne`: update the first document matching `p` with `f`,
reporting matched and modified counts. -/
def updateOne [DecidableEq α] (p : α → Bool) (f : α → α) (l : List α) :
    List α × UpdateResult :=
  match l.find? p with
  | none => (l, ⟨0, 0⟩)
  | some a => (updateFirst p f l, ⟨1, if f a = a then 0 else 1⟩)

/-- Value of JavaScript `toFixed(1)`: round to one decimal digit, ties to
the larger candidate. -/
def round1 (x : Rat) : Rat := ((⌊10 * x + 1 / 2⌋ : Int) : Rat) / 10

/-- Sum of a list of integers, as the source's `reduce((sum, r) => sum + r, 0)`. -/
def sumInt (l : List Int) : Int := l.foldl (· + ·) 0

/-- Response of `POST /reviews`. -/
inductive ReviewResult where
  | forbidden
  | invalidData
  | ok (insertedId : Nat) (newAverageRating : Rat)
deriving DecidableEq, Repr

/-- Route `POST /reviews` (src/index.js lines 636-688): after `verifyJWT` binds
`tokenEmail`, reject when the submitted `userId` differs from the bound
email, reject invalid data, otherwise insert the review, re-read all reviews
of the book, and set the book's rating to the rounded average while
incrementing `reviewCount`. -/
def postReview (db : DB) (tokenEmail : String) (bookId userId : Option String)
    (userName : String) (rating : Option Int) (reviewText : String) (now : Nat) :
    DB × ReviewResult :=
  if userId ≠ some tokenEmail then (db, ReviewResult.forbidden)
  else if bookId.getD "" = "" ∨ userId.getD "" = "" ∨ rating.isNone ∨
      rating.getD 0 < 1 ∨ rating.getD 0 > 5 then
    (db, ReviewResult.invalidData)
  else
    let bid := bookId.getD ""
    let reviewData : Review :=
      { bookId := bid, userId := tokenEmail, userName := userName,
        rating := rating.getD 0, reviewText := reviewText, createdAt := now }
    let reviews' := db.reviews ++ [reviewData]
    let allReviews := reviews'.filter (fun r => r.bookId == bid)
    let totalRating : Int := allReviews.foldl (fun sum r => sum + r.rating) 0
    let newAverageRating := round1 ((totalRating : Rat) / (allReviews.length : Rat))
    let books' := updateFirst (fun b => b.bid == bid)
      (fun b => { b with rating := newAverageRating, reviewCount := b.reviewCount + 1 })
      db.books
    ({ db with reviews := reviews', books := books' },
     ReviewResult.ok (reviews'.length - 1) newAverageRating)

/-- Response of `GET /user-can-review/:bookId/:userEmail`. -/
inductive CanReview where
  | yes
  | notOrdered
  | alreadyReviewed (existingReview : Review)
deriving DecidableEq, Repr

/-- Route `GET /user-can-review/:bookId/:userEmail` (src/index.js lines 702-734):
report `NOT_ORDERED` when the user holds no paid order for the book, else
`ALREADY_REVIEWED` (with the existing review) when the user already reviewed
it, else that the user can review. -/
def userCanReview (db : DB) (bookId userEmail : String) : CanReview :=
  match db.orders.find? (fun o =>
      o.bookId == bookId && o.email == userEmail && o.payment_status == "paid") with
  | none => CanReview.notOrdered
  | some _ =>
    match db.reviews.find? (fun r => r.bookId == bookId && r.userId == userEmail) with
    | some r => CanReview.alreadyReviewed r
    | none => CanReview.yes

/-- Route `PATCH /orders/cancel/:id` (src/index.js lines 499-507): after
`verifyJWT` binds `tokenEmail`, unconditionally set the matched order to
`status = "cancelled"`, `payment_status = "cancelled"`.  The handler never
reads `tokenEmail` (the source's own comment notes the missing ownership
check). -/
def cancelOrder (db : DB) (tokenEmail : String) (orderId : Nat) :
    DB × UpdateResult :=
  let pr := updateOne (fun o => o.oid == orderId)
    (fun o => { o with status := "cancelled", payment_status := "cancelled" })
    db.orders
  ({ db with orders := pr.1 }, pr.2)

/-- Response of `PATCH /orders/payment-success/:orderId`. -/
inductive PayResult where
  | notSettled
  | ok
  | notFound
deriving DecidableEq, Repr

/-- The database update step of `POST /orders/payment-success/:orderId`:
set the matched order to `(processing, paid)`, record the session id (or
`"N/A"`) and the paid timestamp; answer 404 when nothing was modified. -/
def paymentSuccessApply (db : DB) (orderId : Nat) (sessionId : Option String)
    (now : Nat) : DB × PayResult :=
  let pr := updateOne (fun o => o.oid == orderId)
    (fun o => { o with
                payment_status := "paid", status := "processing",
                stripeSessionId := sessionId.getD "N/A", paidAt := some now })
    db.orders
  ({ db with orders := pr.1 },
   if pr.2.modifiedCount = 1 then PayResult.ok else PayResult.notFound)

/-- Route `PATCH /orders/payment-success/:orderId` (src/index.js lines 548-590):
when a `sessionId` is supplied, ask the payment broker for that session's
`payment_status` and reject without touching the database unless it is
`"paid"`; then apply the `(processing, paid)` update.  `broker` models
`stripe.checkout.sessions.retrieve`. -/
def paymentSuccess (db : DB) (tokenEmail : String) (orderId : Nat)
    (sessionId : Option String) (broker : String → String) (now : Nat) :
    DB × PayResult :=
  match sessionId with
  | some sid =>
    if broker sid ≠ "paid" then (db, PayResult.notSettled)
    else paymentSuccessApply db orderId (some sid) now
  | none => paymentSuccessApply db orderId none now

/-- Response of `DELETE /books/delete/:id`. -/
inductive DeleteResult where
  | notFound
  | ok (bookDeleted ordersDeleted : Nat)
deriving DecidableEq, Repr

/-- Route `DELETE /books/delete/:id` (src/index.js lines 304-335): `deleteOne` the
book, then `deleteMany` every order whose `bookId` references it, and only
then check whether the book existed; 404 when it did not (the order cascade
has already run by that point), otherwise report both deletion counts. -/
def deleteBook (db : DB) (bookId : String) : DB × DeleteResult :=
  let bookDeleted := if (db.books.find? (fun b => b.bid == bookId)).isSome then 1 else 0
  let books' := eraseFirst (fun b => b.bid == bookId) db.books
  let ordersDeleted := (db.orders.filter (fun o => o.bookId == bookId)).length
  let orders' := db.orders.filter (fun o => !(o.bookId == bookId))
  let db' := { db with books := books', orders := orders' }
  if bookDeleted = 0 then (db', DeleteResult.notFound)
  else (db', DeleteResult.ok bookDeleted ordersDeleted)

/-- The compound filter of `GET /books` after the optional-parameter guards
have run. -/
structure BooksQuery where
  search : Option String
  category : Option String
  minRating : Option Rat
deriving DecidableEq, Repr

/-- The guard chain of `GET /books` building the filter from the raw query
parameters: `search` is kept when present and neither `""` nor
`"undefined"`; `category` likewise; the rating threshold is kept when the
parameter is present and not the string `"0"` (parsed value `0`). -/
def buildBooksQuery (search category : Option String) (ratingParam : Option Rat) :
    BooksQuery :=
  { search := match search with
      | some s => if s ≠ "" ∧ s ≠ "undefined" then some s else none
      | none => none,
    category := match category with
      | some c => if c ≠ "" ∧ c ≠ "undefined" then some c else none
      | none => none,
    minRating := match ratingParam with
      | some r => if r ≠ 0 then some r else none
      | none => none }

/-- Test whether the pattern list occurs at the head of the other list. -/
def listLeadsWith [DecidableEq α] : List α → List α → Bool
  | [], _ => true
  | _ :: _, [] => false
  | a :: p, b :: l => a == b && listLeadsWith p l

/-- Test whether the pattern list occurs contiguously somewhere in the other list. -/
def listHasRun [DecidableEq α] (pat : List α) : List α → Bool
  | [] => pat.isEmpty
  | a :: l => listLeadsWith pat (a :: l) || listHasRun pat l

/-- Case-insensitive substring containment: the meaning of the source's
`{ $regex: search, $options: "i" }` for a search string without regex
metacharacters. -/
def strContainsCI (hay pat : String) : Bool :=
  listHasRun (pat.toList.map Char.toLower) (hay.toList.map Char.toLower)

/-- Whether a book matches the compound `GET /books` filter: always
`status = "published"`, ANDed with the optional title-or-author substring
match, exact category match, and minimum-rating (`$gte`) threshold. -/
def matchesBooksQuery (q : BooksQuery) (b : Book) : Bool :=
  b.status == "published"
  && (match q.search with
      | some s => strContainsCI b.bookTitle s || strContainsCI b.authorName s
      | none => true)
  && (match q.category with
      | some c => b.category == c
      | none => true)
  && (match q.minRating with
      | some r => decide (r ≤ b.rating)
      | none => true)

/-- Mongo `countDocuments` over the books collection. -/
def countDocuments (books : List Book) (q : BooksQuery) : Nat :=
  (books.filter (matchesBooksQuery q)).length

/-- Route `GET /books` (src/index.js lines 178-211): build the compound filter,
return the `skip (page*size) / limit size` slice of the matching documents
together with `countDocuments` over the same filter. -/
def getBooks (db : DB) (page size : Nat) (search category : Option String)
    (ratingParam : Option Rat) : List Book × Nat :=
  let query := buildBooksQuery search category ratingParam
  let result := ((db.books.filter (matchesBooksQuery query)).drop (page * size)).take size
  (result, countDocuments db.books query)

/-- The client body of `POST /users`: the fields the route reads, plus the
role a client might try to smuggle in (overridden by the spread). -/
structure RegisterBody where
  email : String
  name : String
  role : String
deriving DecidableEq, Repr

/-- Response of `POST /users`. -/
structure RegisterResult where
  insertedId : Option Nat
  message : Option String
deriving DecidableEq, Repr

/-- Route `POST /users` (src/index.js lines 930-945): when a user with the given
email already exists answer `insertedId: null` with an already-exists
message and insert nothing; otherwise insert the body with `role := "user"`
and a server creation timestamp. -/
def registerUser (db : DB) (body : RegisterBody) (now : Nat) :
    DB × RegisterResult :=
  match db.users.find? (fun u => u.email == body.email) with
  | some _ => (db, { insertedId := none, message := some "User already exists" })
  | none =>
    let newUser : User := { email := body.email, name := body.name,
                            role := "user", createdAt := now, lastRoleUpdate := none }
    ({ db with users := db.users ++ [newUser] },
     { insertedId := some db.users.length, message := none })

/-- Response of `POST /orders`. -/
inductive OrderResult where
  | forbidden
  | ok (insertedId : Nat)
deriving DecidableEq, Repr

/-- Route `POST /orders` (src/index.js lines 337-352): reject when the body email
differs from the bound token email; otherwise overwrite the body's
`orderDate`, `status` and `payment_status` with the server values
(`now`, `"pending"`, `"unpaid"`) and insert the order. -/
def createOrder (db : DB) (tokenEmail : String) (body : Order) (now : Nat) :
    DB × OrderResult :=
  if body.email ≠ tokenEmail then (db, OrderResult.forbidden)
  else
    let orderData := { body with
                       orderDate := now, status := "pending",
                       payment_status := "unpaid" }
    ({ db with orders := db.orders ++ [orderData] }, OrderResult.ok orderData.oid)

/-- One `POST /reviews` request of a submission sequence for a fixed book:
the bound token email (the submitted `userId` of an accepted request equals
it), the display name, the integer rating, the text, and the server time. -/
structure ReviewSubmission where
  tokenEmail : String
  userName : String
  rating : Int
  reviewText : String
  now : Nat
deriving DecidableEq, Repr

/-- Run a sequence of `POST /reviews` requests for the book `bid`, keeping
the database state after each one. -/
def runReviewSubmissions (db : DB) (bid : String) (subs : List ReviewSubmission) : DB :=
  subs.foldl (fun d s =>
    (postReview d s.tokenEmail (some bid) (some s.tokenEmail) s.userName
      (some s.rating) s.reviewText s.now).1) db

/-- The review/rating consistency invariant for the book `bid`: the stored
reviews of `bid` carry exactly the ratings `rs` in submission order, the
book document exists, its `reviewCount` is the number of its reviews, and
(once a review exists) its `rating` is the rounded mean of `rs`. -/
def ratingINV (db : DB) (bid : String) (rs : List Int) : Prop :=
  ((db.reviews.filter (fun r => r.bookId == bid)).map (fun r => r.rating) = rs) ∧
  ∃ b, db.books.find? (fun b => b.bid == bid) = some b ∧
    b.reviewCount = rs.length ∧
    (rs ≠ [] → b.rating = round1 ((sumInt rs : Rat) / (rs.length : Rat)))

-- ## Concrete states for witnesses and counterexamples

/-- A freshly created published book with no reviews. -/
def bookW : Book :=
  { bid := "b1", bookTitle := "The Sea", authorName := "Ann", category := "fiction",
    status := "published", librarianEmail := "lib@x.com", price := 10, rating := 0,
    reviewCount := 0 }

/-- A database holding only `bookW`: no orders, so nobody has a paid order. -/
def dbW : DB := { books := [bookW], orders := [], users := [], reviews := [] }

/-- Two review submissions for `bookW` with ratings 5 and 4. -/
def subsW : List ReviewSubmission :=
  [{ tokenEmail := "u@x.com", userName := "U", rating := 5, reviewText := "great", now := 1 },
   { tokenEmail := "v@x.com", userName := "V", rating := 4, reviewText := "good", now := 2 }]

/-- A published book that already carries one five-star review. -/
def bookReviewed : Book :=
  { bid := "b1", bookTitle := "The Sea", authorName := "Ann", category := "fiction",
    status := "published", librarianEmail := "lib@x.com", price := 10, rating := 5,
    reviewCount := 1 }

/-- The existing review of `bookReviewed` by `u@x.com`. -/
def reviewU : Review :=
  { bookId := "b1", userId := "u@x.com", userName := "U", rating := 5,
    reviewText := "first", createdAt := 1 }

/-- A paid order on book `b1` by `u@x.com`. -/
def orderPaidU : Order :=
  { oid := 2, bookId := "b1", bookTitle := "The Sea", price := 10, email := "u@x.com",
    status := "processing", payment_status := "paid", orderDate := 0,
    stripeSessionId := "sess2", paidAt := some 1 }

/-- A state where `u@x.com` holds a paid order on `b1` and already reviewed it. -/
def dbReviewed : DB :=
  { books := [bookReviewed], orders := [orderPaidU], users := [], reviews := [reviewU] }

/-- A delivered, paid order on book `b1` purchased by `a@x.com`. -/
def orderA : Order :=
  { oid := 1, bookId := "b1", bookTitle := "The Sea", price := 10, email := "a@x.com",
    status := "delivered", payment_status := "paid", orderDate := 0,
    stripeSessionId := "sess1", paidAt := some 1 }

/-- A state holding the delivered order of `a@x.com`. -/
def dbOrderA : DB := { books := [bookW], orders := [orderA], users := [], reviews := [] }

/-- A payment broker that reports every session as unsettled. -/
def brokerUnsettled : String → String := fun _ => "unpaid"

/-- A state with no book `b1` but one order still referencing `b1`: the
order is orphaned (orders are created with a client-supplied book id that
is never validated). -/
def dbOrphan : DB := { books := [], orders := [orderA], users := [], reviews := [] }

/-- An unpublished book, invisible to the public listing. -/
def bookDraft : Book :=
  { bid := "b2", bookTitle := "Sea Drafts", authorName := "Bob", category := "fiction",
    status := "unpublished", librarianEmail := "lib@x.com", price := 8, rating := 0,
    reviewCount := 0 }

/-- A published, well-rated book. -/
def bookRated : Book :=
  { bid := "b3", bookTitle := "Ocean Tales", authorName := "Cara", category := "fiction",
    status := "published", librarianEmail := "lib@x.com", price := 12, rating := 4,
    reviewCount := 3 }

/-- A catalog mixing published and unpublished books. -/
def dbCatalog : DB :=
  { books := [bookW, bookDraft, bookRated], orders := [], users := [], reviews := [] }

/-- A registered user record. -/
def userA : User :=
  { email := "a@x.com", name := "Alice", role := "user", createdAt := 0,
    lastRoleUpdate := none }

/-- A state where `a@x.com` is already registered. -/
def dbUsers : DB := { books := [], orders := [], users := [userA], reviews := [] }

/-- A client order body that tries to smuggle in a paid, delivered state
and a forged order date. -/
def orderForged : Order :=
  { oid := 7, bookId := "b1", bookTitle := "The Sea", price := 10, email := "u@x.com",
    status := "delivered", payment_status := "paid", orderDate := 999,
    stripeSessionId := "forged", paidAt := some 999 }

-- ## Helper lemmas

theorem find?_updateFirst (p : α → Bool) (f : α → α) (l : List α)
    (hf : ∀ a, p a = true → p (f a) = true) :
    (updateFirst p f l).find? p = (l.find? p).map f := by
  induction l with
  | nil => rfl
  | cons a t ih =>
    by_cases h : p a = true
    · simp [updateFirst, h, List.find?_cons, hf a h]
    · simp only [Bool.not_eq_true] at h
      simp [updateFirst, h, List.find?_cons, ih]

theorem updateFirst_of_find?_none (p : α → Bool) (f : α → α) (l : List α)
    (h : l.find? p = none) : updateFirst p f l = l := by
  induction l with
  | nil => rfl
  | cons a t ih =>
    rw [List.find?_cons] at h
    by_cases ha : p a = true
    · simp [ha] at h
    · simp only [Bool.not_eq_true] at ha
      simp only [ha, List.find?_cons, reduceIte] at h
      simp [updateFirst, ha, ih h]

theorem sumInt_append (l : List Int) (x : Int) :
    sumInt (l ++ [x]) = sumInt l + x := by
  simp [sumInt, List.foldl_append]

theorem foldl_rating (l : List Review) :
    l.foldl (fun sum r => sum + r.rating) 0 = sumInt (l.map (fun r => r.rating)) := by
  simp [sumInt, List.foldl_map]

theorem postReview_accepted (db : DB) (te bid uN rT : String) (r : Int) (now : Nat)
    (hbid : bid ≠ "") (hte : te ≠ "") (h1 : 1 ≤ r) (h5 : r ≤ 5) :
    postReview db te (some bid) (some te) uN (some r) rT now =
      (let reviewData : Review :=
        { bookId := bid, userId := te, userName := uN,
          rating := r, reviewText := rT, createdAt := now }
       let reviews' := db.reviews ++ [reviewData]
       let allReviews := reviews'.filter (fun rv => rv.bookId == bid)
       let totalRating : Int := allReviews.foldl (fun sum rv => sum + rv.rating) 0
       let newAverageRating := round1 ((totalRating : Rat) / (allReviews.length : Rat))
       let books' := updateFirst (fun b => b.bid == bid)
        (fun b => { b with rating := newAverageRating, reviewCount := b.reviewCount + 1 })
        db.books
       ({ db with reviews := reviews', books := books' },
        ReviewResult.ok (reviews'.length - 1) newAverageRating)) := by
  have hc : ¬((some bid).getD "" = "" ∨ (some te).getD "" = "" ∨
      (some r).isNone = true ∨ (some r).getD 0 < 1 ∨ (some r).getD 0 > 5) := by
    simp only [Option.getD_some, Option.isNone_some]
    push_neg
    refine ⟨hbid, hte, by simp, h1, h5⟩
  rw [postReview, if_neg (show ¬(some te ≠ some te) by simp), if_neg hc]
  rfl

theorem ratingINV_postReview (db : DB) (bid te uN rT : String) (r : Int) (now : Nat)
    (rs : List Int)
    (hbid : bid ≠ "") (hte : te ≠ "") (h1 : 1 ≤ r) (h5 : r ≤ 5)
    (hinv : ratingINV db bid rs) :
    ratingINV (postReview db te (some bid) (some te) uN (some r) rT now).1 bid (rs ++ [r]) := by
  obtain ⟨hmap, b, hfind, hcount, _⟩ := hinv
  rw [postReview_accepted db te bid uN rT r now hbid hte h1 h5]
  simp only
  have hfilter : (db.reviews ++
      [{ bookId := bid, userId := te, userName := uN, rating := r,
         reviewText := rT, createdAt := now : Review }]).filter
        (fun rv => rv.bookId == bid) =
      db.reviews.filter (fun rv => rv.bookId == bid) ++
      [{ bookId := bid, userId := te, userName := uN, rating := r,
         reviewText := rT, createdAt := now : Review }] := by
    simp [List.filter_append]
  have hmap2 : ((db.reviews ++
      [{ bookId := bid, userId := te, userName := uN, rating := r,
         reviewText := rT, createdAt := now : Review }]).filter
        (fun rv => rv.bookId == bid)).map (fun rv => rv.rating) = rs ++ [r] := by
    rw [hfilter]
    simp [hmap]
  have hlen : ((db.reviews ++
      [{ bookId := bid, userId := te, userName := uN, rating := r,
         reviewText := rT, createdAt := now : Review }]).filter
        (fun rv => rv.bookId == bid)).length = rs.length + 1 := by
    have := congrArg List.length hmap2
    simpa using this
  have htot : List.foldl (fun sum rv => sum + rv.rating) 0
      ((db.reviews ++
      [{ bookId := bid, userId := te, userName := uN, rating := r,
         reviewText := rT, createdAt := now : Review }]).filter
        (fun rv => rv.bookId == bid)) = sumInt rs + r := by
    rw [foldl_rating, hmap2, sumInt_append]
  rw [htot, hlen]
  refine ⟨hmap2, ?_⟩
  refine ⟨{ b with
      rating := round1 (((sumInt rs + r : Int) : Rat) / ((rs.length + 1 : Nat) : Rat)),
      reviewCount := b.reviewCount + 1 }, ?_, ?_, ?_⟩
  · dsimp only
    rw [find?_updateFirst (fun b => b.bid == bid)
      (fun b => { b with
        rating := round1 (((sumInt rs + r : Int) : Rat) / ((rs.length + 1 : Nat) : Rat)),
        reviewCount := b.reviewCount + 1 }) db.books (fun a ha => ha), hfind]
    rfl
  · dsimp only
    simp [hcount]
  · intro _
    dsimp only
    rw [sumInt_append, List.length_append]
    norm_num

theorem ratingINV_run (bid : String) (subs : List ReviewSubmission) :
    ∀ (db : DB) (rs : List Int), bid ≠ "" →
    (∀ s ∈ subs, s.tokenEmail ≠ "" ∧ 1 ≤ s.rating ∧ s.rating ≤ 5) →
    ratingINV db bid rs →
    ratingINV (runReviewSubmissions db bid subs) bid
      (rs ++ subs.map (fun s => s.rating)) := by
  induction subs with
  | nil => intro db rs _ _ hinv; simpa [runReviewSubmissions] using hinv
  | cons s t ih =>
    intro db rs hbid hv hinv
    obtain ⟨hte, h1, h5⟩ := hv s (List.mem_cons_self s t)
    have hstep := ratingINV_postReview db bid s.tokenEmail s.userName s.reviewText
      s.rating s.now rs hbid hte h1 h5 hinv
    have hrun : runReviewSubmissions db bid (s :: t) =
        runReviewSubmissions
          (postReview db s.tokenEmail (some bid) (some s.tokenEmail) s.userName
            (some s.rating) s.reviewText s.now).1 bid t := rfl
    rw [hrun]
    have := ih _ (rs ++ [s.rating]) hbid
      (fun x hx => hv x (List.mem_cons_of_mem s hx)) hstep
    simpa [List.append_assoc] using this

/-- C1: after every review insertion for a book, the stored rating is the
rounded mean of the review ratings so far and reviewCount is the number of
reviews, for every prefix of the submission sequence. -/
theorem C1_rating_reviewCount_invariant (db : DB) (bid : String) (b0 : Book)
    (subs : List ReviewSubmission) (k : Nat)
    (hbid : bid ≠ "")
    (hb : db.books.find? (fun b => b.bid == bid) = some b0)
    (hc : b0.reviewCount = 0)
    (hr : db.reviews.filter (fun rv => rv.bookId == bid) = [])
    (hv : ∀ s ∈ subs, s.tokenEmail ≠ "" ∧ 1 ≤ s.rating ∧ s.rating ≤ 5)
    (hk : k ≤ subs.length) :
    (((runReviewSubmissions db bid (subs.take k)).books.find?
        (fun b => b.bid == bid)).map (fun b => b.reviewCount) = some k) ∧
    ((runReviewSubmissions db bid (subs.take k)).reviews.filter
        (fun rv => rv.bookId == bid)).length = k ∧
    (0 < k →
      ((runReviewSubmissions db bid (subs.take k)).books.find?
          (fun b => b.bid == bid)).map (fun b => b.rating) =
        some (round1 ((sumInt ((subs.take k).map (fun s => s.rating)) : Rat) / (k : Rat)))) := by
  have hinv0 : ratingINV db bid [] := by
    refine ⟨by simp [hr], b0, hb, by simp [hc], by simp⟩
  have hvk : ∀ s ∈ subs.take k, s.tokenEmail ≠ "" ∧ 1 ≤ s.rating ∧ s.rating ≤ 5 :=
    fun s hs => hv s (List.take_subset k subs hs)
  have h := ratingINV_run bid (subs.take k) db [] hbid hvk hinv0
  rw [List.nil_append] at h
  obtain ⟨hmap, b, hfind, hcount, hrating⟩ := h
  have hlenk : ((subs.take k).map (fun s => s.rating)).length = k := by
    simp [List.length_take, Nat.min_eq_left hk]
  refine ⟨?_, ?_, ?_⟩
  · rw [hfind, Option.map]
    rw [hcount, hlenk]
  · have hl := congrArg List.length hmap
    rw [List.length_map] at hl
    rw [hl, hlenk]
  · intro hpos
    have hne : (subs.take k).map (fun s => s.rating) ≠ [] := by
      intro hnil
      rw [hnil] at hlenk
      simp at hlenk
      omega
    rw [hfind, Option.map]
    rw [hrating hne, hlenk]

/-- Witness for C1: two submissions with ratings 5 and 4 leave the book with
`reviewCount = 2` and rating `round1 (9/2) = 4.5`. -/
theorem C1_witness :
    (((runReviewSubmissions dbW "b1" (subsW.take 2)).books.find?
        (fun b => b.bid == "b1")).map (fun b => b.reviewCount) = some 2) ∧
    ((runReviewSubmissions dbW "b1" (subsW.take 2)).reviews.filter
        (fun rv => rv.bookId == "b1")).length = 2 ∧
    ((runReviewSubmissions dbW "b1" (subsW.take 2)).books.find?
        (fun b => b.bid == "b1")).map (fun b => b.rating) =
      some (round1 ((sumInt ((subsW.take 2).map (fun s => s.rating)) : Rat) / (2 : Rat))) ∧
    round1 ((sumInt ((subsW.take 2).map (fun s => s.rating)) : Rat) / (2 : Rat)) = 9 / 2 := by
  have h := C1_rating_reviewCount_invariant dbW "b1" bookW subsW 2 (by decide)
    rfl rfl rfl (by decide) (by decide)
  have hsum : sumInt ((subsW.take 2).map (fun s => s.rating)) = 9 := by decide
  refine ⟨h.1, h.2.1, h.2.2 (by decide), ?_⟩
  rw [hsum]
  norm_num [round1]

/-- C2 counterexample: user `u@x.com` has no paid order for book `b1`
(the orders collection is empty), yet a review-create request from that
user succeeds and changes the reviews collection and the book's
`reviewCount`. -/
theorem C2_counterexample :
    dbW.orders.filter (fun o =>
      o.bookId == "b1" && o.email == "u@x.com" && o.payment_status == "paid") = [] ∧
    (postReview dbW "u@x.com" (some "b1") (some "u@x.com") "U" (some 4) "nice" 3).1.reviews
      ≠ dbW.reviews ∧
    ((postReview dbW "u@x.com" (some "b1") (some "u@x.com") "U" (some 4) "nice" 3).1.books.find?
        (fun b => b.bid == "b1")).map (fun b => b.reviewCount) ≠ some bookW.reviewCount := by
  refine ⟨rfl, by decide, by decide⟩

/-- C2 (amended): the review-create route enforces only the identity and
data-validity checks and acts independently of the orders collection — its
resulting reviews and response are unchanged by replacing the orders; the
paid-order requirement is enforced only by the advisory eligibility probe,
which reports `NOT_ORDERED` when the user has no paid order for the book. -/
theorem C2_create_ignores_orders (db : DB) (extra : List Order) (tokenEmail : String)
    (bookId userId : Option String) (userName : String) (rating : Option Int)
    (reviewText : String) (now : Nat) (bid uem : String)
    (hno : ∀ o ∈ db.orders,
      ¬(o.bookId = bid ∧ o.email = uem ∧ o.payment_status = "paid")) :
    userCanReview db bid uem = CanReview.notOrdered ∧
    (postReview { db with orders := extra } tokenEmail bookId userId userName
        rating reviewText now).1.reviews
      = (postReview db tokenEmail bookId userId userName rating reviewText now).1.reviews ∧
    (postReview { db with orders := extra } tokenEmail bookId userId userName
        rating reviewText now).2
      = (postReview db tokenEmail bookId userId userName rating reviewText now).2 := by
  have hfind : db.orders.find? (fun o =>
      o.bookId == bid && o.email == uem && o.payment_status == "paid") = none := by
    rw [List.find?_eq_none]
    intro o ho
    have h := hno o ho
    simp only [Bool.and_eq_true, beq_iff_eq]
    tauto
  refine ⟨?_, ?_, ?_⟩
  · unfold userCanReview
    rw [hfind]
  · unfold postReview
    by_cases h1 : userId ≠ some tokenEmail
    · rw [if_pos h1, if_pos h1]
    · rw [if_neg h1, if_neg h1]
      by_cases h2 : bookId.getD "" = "" ∨ userId.getD "" = "" ∨ rating.isNone = true ∨
          rating.getD 0 < 1 ∨ rating.getD 0 > 5
      · rw [if_pos h2, if_pos h2]
      · rw [if_neg h2, if_neg h2]
  · unfold postReview
    by_cases h1 : userId ≠ some tokenEmail
    · rw [if_pos h1, if_pos h1]
    · rw [if_neg h1, if_neg h1]
      by_cases h2 : bookId.getD "" = "" ∨ userId.getD "" = "" ∨ rating.isNone = true ∨
          rating.getD 0 < 1 ∨ rating.getD 0 > 5
      · rw [if_pos h2, if_pos h2]
      · rw [if_neg h2, if_neg h2]

/-- Witness for the amended C2 at a concrete state with no orders. -/
theorem C2_create_ignores_orders_witness :
    userCanReview dbW "b1" "u@x.com" = CanReview.notOrdered ∧
    (postReview { dbW with orders := [orderPaidU] } "u@x.com" (some "b1") (some "u@x.com")
        "U" (some 4) "nice" 3).1.reviews
      = (postReview dbW "u@x.com" (some "b1") (some "u@x.com") "U" (some 4) "nice" 3).1.reviews ∧
    (postReview { dbW with orders := [orderPaidU] } "u@x.com" (some "b1") (some "u@x.com")
        "U" (some 4) "nice" 3).2
      = (postReview dbW "u@x.com" (some "b1") (some "u@x.com") "U" (some 4) "nice" 3).2 :=
  C2_create_ignores_orders dbW [orderPaidU] "u@x.com" (some "b1") (some "u@x.com")
    "U" (some 4) "nice" 3 "b1" "u@x.com" (by decide)

/-- C3 counterexample: `u@x.com` already reviewed book `b1` (and holds a
paid order), yet a second review-create request by the same user is not
rejected: a second review is inserted. -/
theorem C3_counterexample :
    dbReviewed.reviews.length = 1 ∧
    (dbReviewed.reviews.find? (fun r => r.bookId == "b1" && r.userId == "u@x.com")).isSome ∧
    (postReview dbReviewed "u@x.com" (some "b1") (some "u@x.com") "U" (some 3) "again" 9).1.reviews.length = 2 := by
  refine ⟨rfl, rfl, by decide⟩

/-- C3 (amended): the at-most-one-review rule lives in the advisory
eligibility probe, not in the create route: when the user already reviewed
the book (and holds a paid order) the probe answers `ALREADY_REVIEWED`
surfacing the first stored review unchanged, while the create route itself
still appends a second review for a valid request. -/
theorem C3_probe_already_reviewed (db : DB) (bid uem : String) (rv : Review)
    (hord : (db.orders.find? (fun o =>
        o.bookId == bid && o.email == uem && o.payment_status == "paid")).isSome)
    (hrev : db.reviews.find? (fun r => r.bookId == bid && r.userId == uem) = some rv) :
    userCanReview db bid uem = CanReview.alreadyReviewed rv ∧
    ∀ (uN rT : String) (r : Int) (now : Nat), bid ≠ "" → uem ≠ "" → 1 ≤ r → r ≤ 5 →
      (postReview db uem (some bid) (some uem) uN (some r) rT now).1.reviews
        = db.reviews ++ [{ bookId := bid, userId := uem, userName := uN,
                           rating := r, reviewText := rT, createdAt := now }] := by
  constructor
  · obtain ⟨o, ho⟩ := Option.isSome_iff_exists.mp hord
    unfold userCanReview
    rw [ho, hrev]
  · intro uN rT r now hbid huem h1 h5
    rw [postReview_accepted db uem bid uN rT r now hbid huem h1 h5]

/-- Witness for the amended C3 at the concrete already-reviewed state. -/
theorem C3_probe_already_reviewed_witness :
    userCanReview dbReviewed "b1" "u@x.com" = CanReview.alreadyReviewed reviewU ∧
    (postReview dbReviewed "u@x.com" (some "b1") (some "u@x.com") "U" (some 3) "again" 9).1.reviews
      = dbReviewed.reviews ++ [{ bookId := "b1", userId := "u@x.com", userName := "U",
                                 rating := 3, reviewText := "again", createdAt := 9 }] := by
  have h := C3_probe_already_reviewed dbReviewed "b1" "u@x.com" reviewU rfl rfl
  exact ⟨h.1, h.2 "U" "again" 3 9 (by decide) (by decide) (by decide) (by decide)⟩

/-- C4 (code bug, evaluated at the failing input): order 1 was purchased by
`a@x.com`, the authenticated caller is `b@x.com`, yet the cancel route is
not rejected: it mutates the order to `(cancelled, cancelled)` and reports
one modified document.  The source itself notes the missing ownership
check in a comment on the handler. -/
theorem C4_cancel_ignores_caller :
    orderA.email ≠ "b@x.com" ∧
    (cancelOrder dbOrderA "b@x.com" 1).1.orders.find? (fun o => o.oid == 1) =
      some { orderA with status := "cancelled", payment_status := "cancelled" } ∧
    (cancelOrder dbOrderA "b@x.com" 1).2.modifiedCount = 1 := by
  refine ⟨by decide, by decide, by decide⟩

theorem paymentSuccessApply_changed (db : DB) (oid : Nat) (sid : Option String) (now : Nat)
    (h : (paymentSuccessApply db oid sid now).1.orders ≠ db.orders) :
    ∃ o, db.orders.find? (fun x => x.oid == oid) = some o ∧
      (paymentSuccessApply db oid sid now).1.orders.find? (fun x => x.oid == oid) =
        some { o with
               payment_status := "paid", status := "processing",
               stripeSessionId := sid.getD "N/A", paidAt := some now } := by
  unfold paymentSuccessApply updateOne at h ⊢
  cases hfind : db.orders.find? (fun x => x.oid == oid) with
  | none => rw [hfind] at h; simp at h
  | some o =>
    refine ⟨o, rfl, ?_⟩
    dsimp only
    rw [find?_updateFirst (fun x => x.oid == oid)
      (fun x => { x with
                  payment_status := "paid", status := "processing",
                  stripeSessionId := sid.getD "N/A", paidAt := some now })
      db.orders (fun a ha => ha), hfind]
    rfl

/-- C5: the payment-confirmation route moves an order to
`(processing, paid)` only when no session id was supplied or the broker
reports the session settled; when a session id is supplied and the broker
reports it unsettled, the request is rejected and the database (hence the
order) is not mutated. -/
theorem C5_payment_confirmation_guard (db : DB) (te : String) (oid : Nat)
    (sid : Option String) (broker : String → String) (now : Nat) :
    ((∃ s, sid = some s ∧ broker s ≠ "paid") →
      paymentSuccess db te oid sid broker now = (db, PayResult.notSettled)) ∧
    ((paymentSuccess db te oid sid broker now).1.orders ≠ db.orders →
      (sid = none ∨ ∃ s, sid = some s ∧ broker s = "paid") ∧
      ∃ o, db.orders.find? (fun x => x.oid == oid) = some o ∧
        (paymentSuccess db te oid sid broker now).1.orders.find? (fun x => x.oid == oid) =
          some { o with
                 payment_status := "paid", status := "processing",
                 stripeSessionId := sid.getD "N/A", paidAt := some now }) := by
  cases sid with
  | none =>
    constructor
    · rintro ⟨s, hs, _⟩
      cases hs
    · intro h
      exact ⟨Or.inl rfl, paymentSuccessApply_changed db oid none now h⟩
  | some s =>
    by_cases hb : broker s = "paid"
    · constructor
      · rintro ⟨s2, hs2, hb2⟩
        cases hs2
        exact absurd hb hb2
      · intro h
        have hps : paymentSuccess db te oid (some s) broker now =
            paymentSuccessApply db oid (some s) now := by
          show (if broker s ≠ "paid" then (db, PayResult.notSettled)
                else paymentSuccessApply db oid (some s) now) =
              paymentSuccessApply db oid (some s) now
          rw [if_neg (by simp [hb])]
        rw [hps] at h ⊢
        exact ⟨Or.inr ⟨s, rfl, hb⟩, paymentSuccessApply_changed db oid (some s) now h⟩
    · have hps : paymentSuccess db te oid (some s) broker now =
          (db, PayResult.notSettled) := by
        show (if broker s ≠ "paid" then (db, PayResult.notSettled)
              else paymentSuccessApply db oid (some s) now) = (db, PayResult.notSettled)
        rw [if_pos hb]
      constructor
      · intro _
        exact hps
      · intro h
        rw [hps] at h
        simp at h

/-- Witness for C5: a supplied session that the broker reports unsettled is
rejected with no change to the database. -/
theorem C5_payment_confirmation_guard_witness :
    paymentSuccess dbOrderA "a@x.com" 1 (some "sess1") brokerUnsettled 5 =
      (dbOrderA, PayResult.notSettled) :=
  (C5_payment_confirmation_guard dbOrderA "a@x.com" 1 (some "sess1") brokerUnsettled 5).1
    ⟨"sess1", rfl, by decide⟩

/-- C6: cancelling an order unconditionally sets its state to
`(cancelled, cancelled)`, whatever the prior `status`/`payment_status`
combination was (including delivered orders); every other field of the
order is kept. -/
theorem C6_cancel_unconditional (db : DB) (te : String) (oid : Nat) (o : Order)
    (ho : db.orders.find? (fun x => x.oid == oid) = some o) :
    (cancelOrder db te oid).1.orders.find? (fun x => x.oid == oid) =
      some { o with status := "cancelled", payment_status := "cancelled" } := by
  unfold cancelOrder updateOne
  rw [ho]
  dsimp only
  rw [find?_updateFirst (fun x => x.oid == oid)
    (fun x => { x with status := "cancelled", payment_status := "cancelled" })
    db.orders (fun a ha => ha), ho]
  rfl

/-- Witness for C6: cancelling the already-delivered, paid order 1 yields
`(cancelled, cancelled)`. -/
theorem C6_cancel_unconditional_witness :
    orderA.status = "delivered" ∧ orderA.payment_status = "paid" ∧
    (cancelOrder dbOrderA "a@x.com" 1).1.orders.find? (fun x => x.oid == 1) =
      some { orderA with status := "cancelled", payment_status := "cancelled" } :=
  ⟨rfl, rfl, C6_cancel_unconditional dbOrderA "a@x.com" 1 orderA rfl⟩

theorem eraseFirst_of_find?_none (p : α → Bool) (l : List α)
    (h : l.find? p = none) : eraseFirst p l = l := by
  induction l with
  | nil => rfl
  | cons a t ih =>
    rw [List.find?_cons] at h
    by_cases ha : p a = true
    · simp [ha] at h
    · simp only [Bool.not_eq_true] at ha
      simp only [ha, List.find?_cons, reduceIte] at h
      simp [eraseFirst, ha, ih h]

/-- C7 counterexample: no book with id `b1` exists, yet an order referencing
`b1` is deleted by the delete route even though the response is NotFound —
the order cascade runs before the existence check. -/
theorem C7_counterexample :
    dbOrphan.books.find? (fun b => b.bid == "b1") = none ∧
    (deleteBook dbOrphan "b1").2 = DeleteResult.notFound ∧
    (deleteBook dbOrphan "b1").1.orders = [] ∧
    dbOrphan.orders ≠ [] := by
  refine ⟨rfl, rfl, by decide, by decide⟩

/-- C7 (amended): deleting an existing book deletes exactly the K orders
referencing it and reports `bookDeleted = 1`, `ordersDeleted = K`; deleting
a nonexistent book id reports NotFound, but the order cascade has already
run, so the orders referencing that id are deleted even then. -/
theorem C7_delete_cascade (db : DB) (bid : String) :
    ((db.books.find? (fun b => b.bid == bid)).isSome = true →
      deleteBook db bid =
        ({ db with
           books := eraseFirst (fun b => b.bid == bid) db.books,
           orders := db.orders.filter (fun o => !(o.bookId == bid)) },
         DeleteResult.ok 1 (db.orders.filter (fun o => o.bookId == bid)).length)) ∧
    (db.books.find? (fun b => b.bid == bid) = none →
      deleteBook db bid =
        ({ db with orders := db.orders.filter (fun o => !(o.bookId == bid)) },
         DeleteResult.notFound)) := by
  constructor
  · intro h
    unfold deleteBook
    rw [if_pos h]
    rw [if_neg (by simp)]
  · intro h
    simp [deleteBook, h, eraseFirst_of_find?_none _ _ h]

/-- Witness for C7: deleting the existing book `b1` (one referencing order)
and the nonexistent id `zz` from the orphan state. -/
theorem C7_delete_cascade_witness :
    deleteBook dbOrderA "b1" =
      ({ dbOrderA with
         books := eraseFirst (fun b => b.bid == "b1") dbOrderA.books,
         orders := dbOrderA.orders.filter (fun o => !(o.bookId == "b1")) },
       DeleteResult.ok 1 (dbOrderA.orders.filter (fun o => o.bookId == "b1")).length) ∧
    deleteBook dbOrphan "zz" =
      ({ dbOrphan with orders := dbOrphan.orders.filter (fun o => !(o.bookId == "zz")) },
       DeleteResult.notFound) :=
  ⟨(C7_delete_cascade dbOrderA "b1").1 (by decide),
   (C7_delete_cascade dbOrphan "zz").2 (by decide)⟩

/-- C8: for every book-listing query the returned count is the number of
documents matching the same compound filter used for the returned page
(a filter that only accepts published books), independent of the `page` and
`size` parameters. -/
theorem C8_count_matches_filter (db : DB) (page size page2 size2 : Nat)
    (search category : Option String) (ratingParam : Option Rat) :
    (getBooks db page size search category ratingParam).2 =
      (db.books.filter
        (matchesBooksQuery (buildBooksQuery search category ratingParam))).length ∧
    (getBooks db page size search category ratingParam).2 =
      (getBooks db page2 size2 search category ratingParam).2 ∧
    ∀ b, matchesBooksQuery (buildBooksQuery search category ratingParam) b = true →
      b.status = "published" := by
  refine ⟨rfl, rfl, ?_⟩
  intro b hb
  unfold matchesBooksQuery at hb
  simp only [Bool.and_eq_true, beq_iff_eq] at hb
  exact hb.1.1.1

/-- Witness for C8: a search/category/rating query over the mixed catalog
returns a count equal to the filtered length, the same count at another
page/size, and the matching book `bookRated` is published. -/
theorem C8_count_matches_filter_witness :
    (getBooks dbCatalog 0 10 (some "ocean") (some "fiction") (some 3)).2 =
      (dbCatalog.books.filter
        (matchesBooksQuery (buildBooksQuery (some "ocean") (some "fiction") (some 3)))).length ∧
    (getBooks dbCatalog 0 10 (some "ocean") (some "fiction") (some 3)).2 =
      (getBooks dbCatalog 7 3 (some "ocean") (some "fiction") (some 3)).2 ∧
    bookRated.status = "published" := by
  have h := C8_count_matches_filter dbCatalog 0 10 7 3 (some "ocean") (some "fiction") (some 3)
  exact ⟨h.1, h.2.1, h.2.2 bookRated (by decide)⟩

/-- C9: self-registration is idempotent: registering an email that already
has a user record returns `insertedId = null` with an already-exists
message and leaves the users collection (including the stored role)
unchanged; a first-time registration inserts the user with the server
defaults `role = "user"` and a server creation timestamp, overriding any
client-supplied role. -/
theorem C9_registration_idempotent (db : DB) (body : RegisterBody) (now : Nat) :
    ((∃ u ∈ db.users, u.email = body.email) →
      registerUser db body now =
        (db, { insertedId := none, message := some "User already exists" })) ∧
    ((∀ u ∈ db.users, u.email ≠ body.email) →
      registerUser db body now =
        ({ db with users := db.users ++
            [{ email := body.email, name := body.name, role := "user",
               createdAt := now, lastRoleUpdate := none }] },
         { insertedId := some db.users.length, message := none })) := by
  constructor
  · rintro ⟨u, hu, he⟩
    have hs : (db.users.find? (fun v => v.email == body.email)).isSome := by
      rw [List.find?_isSome]
      exact ⟨u, hu, by simp [he]⟩
    obtain ⟨v, hv⟩ := Option.isSome_iff_exists.mp hs
    unfold registerUser
    rw [hv]
  · intro h
    have hn : db.users.find? (fun v => v.email == body.email) = none := by
      rw [List.find?_eq_none]
      intro u hu
      simp [h u hu]
    unfold registerUser
    rw [hn]

/-- Witness for C9: re-registering `a@x.com` (even with a smuggled admin
role) is a no-op returning a null id, and registering a fresh email stores
role `user`. -/
theorem C9_registration_idempotent_witness :
    registerUser dbUsers { email := "a@x.com", name := "Mallory", role := "admin" } 5 =
      (dbUsers, { insertedId := none, message := some "User already exists" }) ∧
    registerUser dbW { email := "b@x.com", name := "Bob", role := "admin" } 5 =
      ({ dbW with users := dbW.users ++
          [{ email := "b@x.com", name := "Bob", role := "user",
             createdAt := 5, lastRoleUpdate := none }] },
       { insertedId := some dbW.users.length, message := none }) :=
  ⟨(C9_registration_idempotent dbUsers { email := "a@x.com", name := "Mallory", role := "admin" } 5).1
     ⟨userA, by decide, by decide⟩,
   (C9_registration_idempotent dbW { email := "b@x.com", name := "Bob", role := "admin" } 5).2
     (by decide)⟩

/-- C10: order creation stores the server defaults: whatever `status`,
`payment_status` or `orderDate` the client supplies in the body, the stored
order has `status = "pending"`, `payment_status = "unpaid"` and the
server-assigned order date; a body whose email differs from the bound token
email is rejected without touching the orders collection. -/
theorem C10_order_server_defaults (db : DB) (te : String) (body : Order) (now : Nat) :
    (body.email ≠ te → createOrder db te body now = (db, OrderResult.forbidden)) ∧
    (body.email = te →
      (createOrder db te body now).1.orders =
        db.orders ++ [{ body with
                        orderDate := now, status := "pending",
                        payment_status := "unpaid" }]) := by
  constructor
  · intro h
    unfold createOrder
    rw [if_pos h]
  · intro h
    unfold createOrder
    rw [if_neg (by simp [h])]

/-- Witness for C10: a body claiming a delivered, paid state with a forged
date is stored as `(pending, unpaid)` with the server date. -/
theorem C10_order_server_defaults_witness :
    orderForged.status = "delivered" ∧ orderForged.payment_status = "paid" ∧
    (createOrder dbW "u@x.com" orderForged 42).1.orders =
      dbW.orders ++ [{ orderForged with
                       orderDate := 42, status := "pending",
                       payment_status := "unpaid" }] ∧
    createOrder dbW "x@x.com" orderForged 42 = (dbW, OrderResult.forbidden) :=
  ⟨rfl, rfl,
   (C10_order_server_defaults dbW "u@x.com" orderForged 42).2 rfl,
   (C10_order_server_defaults dbW "x@x.com" orderForged 42).1 (by decide)⟩

end BookCourier
